import Mathlib

set_option maxRecDepth 100000

/-!
Shallow embedding of the MominOS desktop shell window manager
(src/app/components/desktop.tsx) and of the session gate
(src/app/components/login-screen.tsx).

Coordinates are rationals: the source manipulates JavaScript numbers with
addition, subtraction, comparison, max, min and halving, all exact here.
Component state updates are modelled as sequential assignments to an
explicit state record threaded through the handlers, matching the
single-threaded event model of the shell.  Opaque UI payloads (icon,
component) are carried as inert numeric tags.  The randomized spawn
offset of a new window and its generation-stamped identifier are passed
in as parameters of openApp.
-/

namespace MominOS

/-- Snap label stored on a window (the snapped field of the Window record). -/
inductive SnapType where
  | left
  | right
  | topLeft
  | topRight
  | bottomLeft
  | bottomRight
deriving DecidableEq

/-- The snap zones a release point can be classified into. -/
inductive SnapZone where
  | leftHalf
  | rightHalf
  | topLeft
  | topRight
  | bottomLeft
  | bottomRight
  | maximize
deriving DecidableEq

/-- The eight dock anchors. -/
inductive DockPosition where
  | bottom
  | top
  | left
  | right
  | bottomLeft
  | bottomRight
  | topLeft
  | topRight
deriving DecidableEq

/-- The eight resize handles. -/
inductive Handle where
  | right
  | left
  | bottom
  | top
  | bottomRight
  | bottomLeft
  | topRight
  | topLeft
deriving DecidableEq

/-- A window record, after the Window interface of desktop.tsx. -/
structure Window where
  id : String
  title : String
  icon : Nat
  x : ℚ
  y : ℚ
  width : ℚ
  height : ℚ
  minimized : Bool
  maximized : Bool
  snapped : Option SnapType
  isResizing : Bool
deriving DecidableEq

/-- A catalog entry, after the App interface of desktop.tsx. -/
structure App where
  id : String
  name : String
  icon : Nat
deriving DecidableEq

/-- The dragRef payload of an in-progress window drag. -/
structure DragRef where
  windowId : String
  startX : ℚ
  startY : ℚ
deriving DecidableEq

/-- The resizingWindow snapshot captured by startWindowResize. -/
structure ResizingWindow where
  windowId : String
  handle : Handle
  startX : ℚ
  startY : ℚ
  startWidth : ℚ
  startHeight : ℚ
  startWindowX : ℚ
  startWindowY : ℚ
deriving DecidableEq

/-- The shell state owned by the Desktop component (the fields the window
manager reads and writes). -/
structure DesktopState where
  windows : List Window
  activeWindow : Option String
  searchOpen : Bool
  dockPosition : DockPosition
  showSnapZones : Bool
  draggingWindow : Option String
  dragRef : Option DragRef
deriving DecidableEq

/-- handleDockDrag of desktop.tsx: classifies the release point of a dock
drag into one of the eight anchors.  The margin is 100 and the near-top
test adds 64 to the margin, exactly as in the source. -/
def handleDockDrag (x y windowWidth windowHeight : ℚ) : DockPosition :=
  let margin : ℚ := 100
  let isNearLeft : Bool := decide (x < margin)
  let isNearRight : Bool := decide (x > windowWidth - margin)
  let isNearTop : Bool := decide (y < margin + 64)
  let isNearBottom : Bool := decide (y > windowHeight - margin)
  if isNearLeft && isNearTop then DockPosition.topLeft
  else if isNearRight && isNearTop then DockPosition.topRight
  else if isNearLeft && isNearBottom then DockPosition.bottomLeft
  else if isNearRight && isNearBottom then DockPosition.bottomRight
  else if isNearLeft then DockPosition.left
  else if isNearRight then DockPosition.right
  else if isNearTop then DockPosition.top
  else DockPosition.bottom

/-- Pre-clamp geometry produced by a resize update.  -/
structure Geom where
  x : ℚ
  y : ℚ
  width : ℚ
  height : ℚ
deriving DecidableEq

/-- The switch over the resize handle in handleWindowResize of desktop.tsx,
before the screen-bounds clamp: each case floors a changed width at 300 and
a changed height at 200, and pins the moving edge when the floor is hit. -/
def resizeCore (rz : ResizingWindow) (deltaX deltaY : ℚ) (w : Window) : Geom :=
  match rz.handle with
  | Handle.right =>
      { x := w.x, y := w.y, width := max 300 (rz.startWidth + deltaX), height := w.height }
  | Handle.left =>
      let newWidth := max 300 (rz.startWidth - deltaX)
      let newX := if newWidth = 300 then rz.startWindowX + rz.startWidth - 300
                  else rz.startWindowX + deltaX
      { x := newX, y := w.y, width := newWidth, height := w.height }
  | Handle.bottom =>
      { x := w.x, y := w.y, width := w.width, height := max 200 (rz.startHeight + deltaY) }
  | Handle.top =>
      let newHeight := max 200 (rz.startHeight - deltaY)
      let newY := if newHeight = 200 then rz.startWindowY + rz.startHeight - 200
                  else rz.startWindowY + deltaY
      { x := w.x, y := newY, width := w.width, height := newHeight }
  | Handle.bottomRight =>
      { x := w.x, y := w.y, width := max 300 (rz.startWidth + deltaX),
        height := max 200 (rz.startHeight + deltaY) }
  | Handle.bottomLeft =>
      let newWidth := max 300 (rz.startWidth - deltaX)
      let newX := if newWidth = 300 then rz.startWindowX + rz.startWidth - 300
                  else rz.startWindowX + deltaX
      { x := newX, y := w.y, width := newWidth, height := max 200 (rz.startHeight + deltaY) }
  | Handle.topRight =>
      let newHeight := max 200 (rz.startHeight - deltaY)
      let newY := if newHeight = 200 then rz.startWindowY + rz.startHeight - 200
                  else rz.startWindowY + deltaY
      { x := w.x, y := newY, width := max 300 (rz.startWidth + deltaX), height := newHeight }
  | Handle.topLeft =>
      let newWidth := max 300 (rz.startWidth - deltaX)
      let newHeight := max 200 (rz.startHeight - deltaY)
      let newX := if newWidth = 300 then rz.startWindowX + rz.startWidth - 300
                  else rz.startWindowX + deltaX
      let newY := if newHeight = 200 then rz.startWindowY + rz.startHeight - 200
                  else rz.startWindowY + deltaY
      { x := newX, y := newY, width := newWidth, height := newHeight }

/-- The per-window transform of the windows.map call in handleWindowResize:
non-target windows are untouched; the target gets the handle geometry, its
position clamped to the screen bounds, and its isResizing flag set. -/
def resizeStep (rz : ResizingWindow) (clientX clientY innerWidth innerHeight : ℚ)
    (w : Window) : Window :=
  if w.id = rz.windowId then
    let deltaX := clientX - rz.startX
    let deltaY := clientY - rz.startY
    let g := resizeCore rz deltaX deltaY w
    let newX := max 0 (min g.x (innerWidth - g.width))
    let newY := max 40 (min g.y (innerHeight - g.height))
    { w with x := newX, y := newY, width := g.width, height := g.height, isResizing := true }
  else w

/-- handleWindowResize of desktop.tsx, as a function of the window list. -/
def handleWindowResize (rz : ResizingWindow) (clientX clientY innerWidth innerHeight : ℚ)
    (windows : List Window) : List Window :=
  windows.map (resizeStep rz clientX clientY innerWidth innerHeight)

/-- One resize pointer-move event: the live snapshot, the pointer and the
viewport at that moment. -/
structure ResizeEv where
  rz : ResizingWindow
  clientX : ℚ
  clientY : ℚ
  vw : ℚ
  vh : ℚ

/-- A sequence of resize updates applied to the window list. -/
def applyResizes : List ResizeEv → List Window → List Window
  | [], windows => windows
  | e :: rest, windows =>
      applyResizes rest (handleWindowResize e.rz e.clientX e.clientY e.vw e.vh windows)

/-- The per-window transform used by openApp when the existing window is
minimized. -/
def unminimizeStep (targetId : String) (w : Window) : Window :=
  if w.id = targetId then { w with minimized := false } else w

/-- openApp of desktop.tsx.  newId stands for the generation-stamped
identifier and newX, newY for the randomized spawn offset of the source. -/
def openApp (app : App) (newId : String) (newX newY : ℚ) (st : DesktopState) : DesktopState :=
  match st.windows.find? (fun w => w.title == app.name) with
  | some existingWindow =>
      let windows1 :=
        if existingWindow.minimized then st.windows.map (unminimizeStep existingWindow.id)
        else st.windows
      { st with windows := windows1, activeWindow := some existingWindow.id }
  | none =>
      let newWindow : Window :=
        { id := newId, title := app.name, icon := app.icon, x := newX, y := newY,
          width := 900, height := 700, minimized := false, maximized := false,
          snapped := none, isResizing := false }
      { st with windows := st.windows ++ [newWindow],
                activeWindow := some newId,
                searchOpen := false }

/-- The per-window transform of maximizeWindow of desktop.tsx: the target
window's maximized flag is toggled; the geometry reads the old flag, so on
exit it is kept and on entry it becomes the full work area; the snap anchor
is cleared. -/
def maximizeStep (windowId : String) (innerWidth innerHeight : ℚ) (w : Window) : Window :=
  if w.id = windowId then
    { w with maximized := !w.maximized,
             x := if w.maximized then w.x else 0,
             y := if w.maximized then w.y else 40,
             width := if w.maximized then w.width else innerWidth,
             height := if w.maximized then w.height else innerHeight - 40,
             snapped := none }
  else w

/-- maximizeWindow of desktop.tsx, as a function of the window list. -/
def maximizeWindow (windowId : String) (innerWidth innerHeight : ℚ)
    (windows : List Window) : List Window :=
  windows.map (maximizeStep windowId innerWidth innerHeight)

/-- The target geometry and snap label computed by the switch in snapWindow
of desktop.tsx, from the screen width and the screen height minus the top
bar. -/
structure SnapTarget where
  x : ℚ
  y : ℚ
  width : ℚ
  height : ℚ
  snapType : Option SnapType
deriving DecidableEq

/-- The switch over the zone in snapWindow of desktop.tsx. -/
def snapTargetFor (zone : SnapZone) (screenWidth screenHeight : ℚ) : SnapTarget :=
  match zone with
  | SnapZone.leftHalf =>
      { x := 0, y := 40, width := screenWidth / 2, height := screenHeight,
        snapType := some SnapType.left }
  | SnapZone.rightHalf =>
      { x := screenWidth / 2, y := 40, width := screenWidth / 2, height := screenHeight,
        snapType := some SnapType.right }
  | SnapZone.topLeft =>
      { x := 0, y := 40, width := screenWidth / 2, height := screenHeight / 2,
        snapType := some SnapType.topLeft }
  | SnapZone.topRight =>
      { x := screenWidth / 2, y := 40, width := screenWidth / 2, height := screenHeight / 2,
        snapType := some SnapType.topRight }
  | SnapZone.bottomLeft =>
      { x := 0, y := 40 + screenHeight / 2, width := screenWidth / 2,
        height := screenHeight / 2, snapType := some SnapType.bottomLeft }
  | SnapZone.bottomRight =>
      { x := screenWidth / 2, y := 40 + screenHeight / 2, width := screenWidth / 2,
        height := screenHeight / 2, snapType := some SnapType.bottomRight }
  | SnapZone.maximize =>
      { x := 0, y := 40, width := screenWidth, height := screenHeight, snapType := none }

/-- The per-window transform of the windows.map call in snapWindow. -/
def snapStep (windowId : String) (zone : SnapZone) (t : SnapTarget) (w : Window) : Window :=
  if w.id = windowId then
    { w with x := t.x, y := t.y, width := t.width, height := t.height,
             maximized := decide (zone = SnapZone.maximize), snapped := t.snapType }
  else w

/-- snapWindow of desktop.tsx. -/
def snapWindow (windowId : String) (zone : SnapZone) (innerWidth innerHeight : ℚ)
    (st : DesktopState) : DesktopState :=
  let screenWidth := innerWidth
  let screenHeight := innerHeight - 40
  { st with
      windows := st.windows.map
        (snapStep windowId zone (snapTargetFor zone screenWidth screenHeight)),
      showSnapZones := false,
      draggingWindow := none }

/-- The per-window transform of the windows.map call in
handleWindowMouseMove: only the dragged, non-maximized window moves, with
its x floored at 0 and its y floored at 40, and its snap anchor cleared. -/
def dragMoveStep (windowId : String) (deltaX deltaY : ℚ) (w : Window) : Window :=
  if w.id = windowId ∧ w.maximized = false then
    { w with x := max 0 (w.x + deltaX), y := max 40 (w.y + deltaY), snapped := none }
  else w

/-- handleWindowMouseDown of desktop.tsx (a pointer-down on a window's
draggable chrome). -/
def handleWindowMouseDown (windowId : String) (clientX clientY : ℚ)
    (st : DesktopState) : DesktopState :=
  { st with dragRef := some { windowId := windowId, startX := clientX, startY := clientY },
            activeWindow := some windowId,
            draggingWindow := some windowId }

/-- handleWindowMouseMove of desktop.tsx: with a live dragRef, computes the
incremental pointer delta, refreshes the snap-zone display flag from the
50px edge margins, moves the dragged window, and re-arms the delta
baseline. -/
def handleWindowMouseMove (clientX clientY innerWidth innerHeight : ℚ)
    (st : DesktopState) : DesktopState :=
  match st.dragRef with
  | none => st
  | some dr =>
      let deltaX := clientX - dr.startX
      let deltaY := clientY - dr.startY
      let showZones : Bool :=
        decide (clientY < 50) || decide (clientX < 50) ||
        decide (clientX > innerWidth - 50) || decide (clientY > innerHeight - 50)
      { st with showSnapZones := showZones,
                windows := st.windows.map (dragMoveStep dr.windowId deltaX deltaY),
                dragRef := some { windowId := dr.windowId, startX := clientX, startY := clientY } }

/-- The final windows.map of handleWindowMouseUp, clearing the transient
resize flag. -/
def clearResizeStep (w : Window) : Window :=
  { w with isResizing := false }

/-- handleWindowMouseUp of desktop.tsx: with a live dragRef and visible
snap zones, classifies the release point (top band first, then bottom band,
then left, then right; within the top and bottom bands the horizontal half
picks the corner) and snaps; then always drops the drag state and clears
the transient resize flags. -/
def handleWindowMouseUp (clientX clientY innerWidth innerHeight : ℚ)
    (st : DesktopState) : DesktopState :=
  let st1 :=
    match st.dragRef with
    | some dr =>
        if st.showSnapZones then
          if clientY < 50 then
            if clientX < innerWidth / 2 then
              snapWindow dr.windowId SnapZone.topLeft innerWidth innerHeight st
            else
              snapWindow dr.windowId SnapZone.topRight innerWidth innerHeight st
          else if clientY > innerHeight - 50 then
            if clientX < innerWidth / 2 then
              snapWindow dr.windowId SnapZone.bottomLeft innerWidth innerHeight st
            else
              snapWindow dr.windowId SnapZone.bottomRight innerWidth innerHeight st
          else if clientX < 50 then
            snapWindow dr.windowId SnapZone.leftHalf innerWidth innerHeight st
          else if clientX > innerWidth - 50 then
            snapWindow dr.windowId SnapZone.rightHalf innerWidth innerHeight st
          else st
        else st
    | none => st
  { st1 with dragRef := none,
             showSnapZones := false,
             draggingWindow := none,
             windows := st1.windows.map clearResizeStep }

/-- One drag pointer-move event: the pointer and the viewport at that
moment. -/
structure PointerEv where
  clientX : ℚ
  clientY : ℚ
  vw : ℚ
  vh : ℚ

/-- A sequence of drag move updates applied to the shell state. -/
def applyDragMoves : List PointerEv → DesktopState → DesktopState
  | [], st => st
  | e :: rest, st =>
      applyDragMoves rest (handleWindowMouseMove e.clientX e.clientY e.vw e.vh st)

/-- A whole window-drag gesture: pointer-down on the window, a sequence of
moves, then pointer-up. -/
def windowDragGesture (windowId : String) (downX downY : ℚ) (moves : List PointerEv)
    (upX upY upW upH : ℚ) (st : DesktopState) : DesktopState :=
  handleWindowMouseUp upX upY upW upH
    (applyDragMoves moves (handleWindowMouseDown windowId downX downY st))

/-- An identity record, after the user objects of login-screen.tsx. -/
structure User where
  id : String
  name : String
  username : String
  avatar : Option String
deriving DecidableEq

/-- handleLogin of login-screen.tsx: the callback argument produced by a
submit of the session-gate form, none when the callback does not fire.  The
source guard is the JavaScript truthiness test of selectedUser and of the
password string, so the callback fires exactly when an identity is selected
and the credential is non-empty, and its argument is the identity alone. -/
def handleLogin (selectedUser : Option User) (password : String) : Option User :=
  match selectedUser with
  | some u => if password = "" then none else some u
  | none => none

/-! ### Shared concrete states for witnesses -/

/-- A freshly opened window, as openApp creates it at offset (120, 150). -/
def demoWindow : Window :=
  { id := "w1", title := "Terminal", icon := 0, x := 120, y := 150,
    width := 900, height := 700, minimized := false, maximized := false,
    snapped := none, isResizing := false }

/-- The drag reference of an in-progress drag of demoWindow. -/
def demoDragRef : DragRef :=
  { windowId := "w1", startX := 600, startY := 600 }

/-- A shell state in the middle of dragging demoWindow. -/
def demoDragState : DesktopState :=
  { windows := [demoWindow], activeWindow := some "w1", searchOpen := false,
    dockPosition := DockPosition.bottom, showSnapZones := false,
    draggingWindow := some "w1",
    dragRef := some demoDragRef }

/-- One drag move far up and left, hitting both clamps. -/
def demoMoves : List PointerEv :=
  [{ clientX := 5, clientY := 5, vw := 1920, vh := 1080 }]

/-- One resize update with the top-left handle shrinking past both floors. -/
def demoResizes : List ResizeEv :=
  [{ rz := { windowId := "w1", handle := Handle.topLeft, startX := 600, startY := 600,
             startWidth := 900, startHeight := 700, startWindowX := 120, startWindowY := 150 },
     clientX := 1500, clientY := 1500, vw := 1920, vh := 1080 }]

/-! ### Claim C1: drag moves keep windows right of x = 0 and below the top bar -/

lemma dragMoveStep_eq_of_not (windowId : String) (deltaX deltaY : ℚ) (w : Window)
    (h : ¬ (w.id = windowId ∧ w.maximized = false)) :
    dragMoveStep windowId deltaX deltaY w = w := by
  simp only [dragMoveStep, if_neg h]

lemma mouseMove_pos_inv (clientX clientY innerWidth innerHeight : ℚ) (st : DesktopState)
    (hinv : ∀ w ∈ st.windows, 0 ≤ w.x ∧ 40 ≤ w.y) :
    ∀ w ∈ (handleWindowMouseMove clientX clientY innerWidth innerHeight st).windows,
      0 ≤ w.x ∧ 40 ≤ w.y := by
  intro w hw
  unfold handleWindowMouseMove at hw
  split at hw
  · exact hinv w hw
  · rename_i dr heq
    simp only [List.mem_map] at hw
    obtain ⟨v, hv, rfl⟩ := hw
    by_cases hc : v.id = dr.windowId ∧ v.maximized = false
    · simp only [dragMoveStep, if_pos hc]
      exact ⟨le_max_left 0 _, le_max_left 40 _⟩
    · rw [dragMoveStep_eq_of_not _ _ _ _ hc]
      exact hinv v hv

lemma applyDragMoves_pos_inv (moves : List PointerEv) :
    ∀ st : DesktopState, (∀ w ∈ st.windows, 0 ≤ w.x ∧ 40 ≤ w.y) →
      ∀ w ∈ (applyDragMoves moves st).windows, 0 ≤ w.x ∧ 40 ≤ w.y := by
  induction moves with
  | nil => intro st h; simpa [applyDragMoves] using h
  | cons e rest ih =>
      intro st h
      simp only [applyDragMoves]
      exact ih _ (mouseMove_pos_inv _ _ _ _ _ h)

/-- Claim C1: starting from any state whose windows all sit at x at least 0
and y at least 40, every sequence of window-drag move updates keeps every
window at x at least 0 and y at least 40; each update gives the dragged,
non-maximized window exactly the clamped position (the pointer delta added,
x floored at 0 and y floored at 40, size untouched) and leaves every other
window unchanged. -/
theorem drag_moves_clamp_positions (st : DesktopState) (moves : List PointerEv)
    (hinv : ∀ w ∈ st.windows, 0 ≤ w.x ∧ 40 ≤ w.y) :
    (∀ w ∈ (applyDragMoves moves st).windows, 0 ≤ w.x ∧ 40 ≤ w.y) ∧
    (∀ (windowId : String) (deltaX deltaY : ℚ) (w : Window),
      (w.id = windowId → w.maximized = false →
        (dragMoveStep windowId deltaX deltaY w).x = max 0 (w.x + deltaX) ∧
        (dragMoveStep windowId deltaX deltaY w).y = max 40 (w.y + deltaY) ∧
        (dragMoveStep windowId deltaX deltaY w).width = w.width ∧
        (dragMoveStep windowId deltaX deltaY w).height = w.height) ∧
      (¬ (w.id = windowId ∧ w.maximized = false) →
        dragMoveStep windowId deltaX deltaY w = w)) := by
  refine ⟨applyDragMoves_pos_inv moves st hinv, ?_⟩
  intro windowId deltaX deltaY w
  constructor
  · intro h1 h2
    simp [dragMoveStep, h1, h2]
  · intro h
    exact dragMoveStep_eq_of_not _ _ _ _ h

/-- Witness for C1 at a concrete dragged window and move. -/
theorem drag_moves_clamp_positions_witness :
    0 ≤ ((applyDragMoves demoMoves demoDragState).windows.getD 0 demoWindow).x ∧
    40 ≤ ((applyDragMoves demoMoves demoDragState).windows.getD 0 demoWindow).y :=
  (drag_moves_clamp_positions demoDragState demoMoves (by decide)).1 _
    (by with_unfolding_all decide)

/-! ### Claim C2: resize updates keep width at least 300 and height at least 200 -/

lemma resizeCore_width_floor (rz : ResizingWindow) (dX dY : ℚ) (w : Window)
    (h : 300 ≤ w.width) : 300 ≤ (resizeCore rz dX dY w).width := by
  obtain ⟨wid, hd, a1, a2, a3, a4, a5, a6⟩ := rz
  cases hd <;> simp [resizeCore, le_max_left, h]

lemma resizeCore_height_floor (rz : ResizingWindow) (dX dY : ℚ) (w : Window)
    (h : 200 ≤ w.height) : 200 ≤ (resizeCore rz dX dY w).height := by
  obtain ⟨wid, hd, a1, a2, a3, a4, a5, a6⟩ := rz
  cases hd <;> simp [resizeCore, le_max_left, h]

lemma resizeStep_floor (rz : ResizingWindow) (clientX clientY vw vh : ℚ) (w : Window)
    (hw : 300 ≤ w.width) (hh : 200 ≤ w.height) :
    300 ≤ (resizeStep rz clientX clientY vw vh w).width ∧
    200 ≤ (resizeStep rz clientX clientY vw vh w).height := by
  unfold resizeStep
  by_cases hid : w.id = rz.windowId
  · rw [if_pos hid]
    exact ⟨resizeCore_width_floor rz _ _ w hw, resizeCore_height_floor rz _ _ w hh⟩
  · rw [if_neg hid]
    exact ⟨hw, hh⟩

lemma handleWindowResize_floor (rz : ResizingWindow) (clientX clientY vw vh : ℚ)
    (l : List Window) (h : ∀ w ∈ l, 300 ≤ w.width ∧ 200 ≤ w.height) :
    ∀ w ∈ handleWindowResize rz clientX clientY vw vh l,
      300 ≤ w.width ∧ 200 ≤ w.height := by
  intro w hw
  unfold handleWindowResize at hw
  simp only [List.mem_map] at hw
  obtain ⟨v, hv, rfl⟩ := hw
  exact resizeStep_floor _ _ _ _ _ _ (h v hv).1 (h v hv).2

lemma applyResizes_floor (evs : List ResizeEv) :
    ∀ l : List Window, (∀ w ∈ l, 300 ≤ w.width ∧ 200 ≤ w.height) →
      ∀ w ∈ applyResizes evs l, 300 ≤ w.width ∧ 200 ≤ w.height := by
  induction evs with
  | nil => intro l h; simpa [applyResizes] using h
  | cons e rest ih =>
      intro l h
      simp only [applyResizes]
      exact ih _ (handleWindowResize_floor _ _ _ _ _ _ h)

/-- Claim C2: starting from any window list whose windows all have width at
least 300 and height at least 200, every sequence of resize updates with
any of the eight handles keeps every window at width at least 300 and
height at least 200; and a single resize update on a window satisfying the
floors again satisfies them, whatever the handle. -/
theorem resize_updates_keep_size_floor (l : List Window) (evs : List ResizeEv)
    (hinv : ∀ w ∈ l, 300 ≤ w.width ∧ 200 ≤ w.height) :
    (∀ w ∈ applyResizes evs l, 300 ≤ w.width ∧ 200 ≤ w.height) ∧
    (∀ (rz : ResizingWindow) (clientX clientY vw vh : ℚ) (w : Window),
      300 ≤ w.width → 200 ≤ w.height →
      300 ≤ (resizeStep rz clientX clientY vw vh w).width ∧
      200 ≤ (resizeStep rz clientX clientY vw vh w).height) :=
  ⟨applyResizes_floor evs l hinv,
   fun rz clientX clientY vw vh w hw hh => resizeStep_floor rz clientX clientY vw vh w hw hh⟩

/-- Witness for C2 at a concrete shrink-past-the-floor resize. -/
theorem resize_updates_keep_size_floor_witness :
    300 ≤ ((applyResizes demoResizes [demoWindow]).getD 0 demoWindow).width ∧
    200 ≤ ((applyResizes demoResizes [demoWindow]).getD 0 demoWindow).height :=
  (resize_updates_keep_size_floor [demoWindow] demoResizes (by decide)).1 _
    (by with_unfolding_all decide)

/-! ### Claim C3: opening an app whose title matches an existing window -/

/-- The Terminal catalog entry of desktopApps. -/
def demoApp : App :=
  { id := "terminal", name := "Terminal", icon := 0 }

/-- demoWindow, minimized. -/
def demoMinWindow : Window :=
  { demoWindow with minimized := true }

/-- A shell state with the launcher overlay open over one minimized
Terminal window. -/
def demoLauncherState : DesktopState :=
  { windows := [demoMinWindow], activeWindow := none, searchOpen := true,
    dockPosition := DockPosition.bottom, showSnapZones := false,
    draggingWindow := none, dragRef := none }

/-- A generation-stamped identifier for a would-be new window. -/
def demoNewId : String := "window-2"

/-- The identifier of the demo windows. -/
def demoId : String := "w1"

/-- Claim C3: when some window's title equals the app's name, openApp
creates no window (the count is unchanged), clears the minimized flag of
the found window when it was set, points the active window at the found
window's id, changes no other field of any window, and leaves the
launcher-open flag as it was. -/
theorem openApp_existing_title_no_new_window (app : App) (newId : String) (newX newY : ℚ)
    (st : DesktopState) (ew : Window)
    (h : st.windows.find? (fun w => w.title == app.name) = some ew) :
    (openApp app newId newX newY st).windows.length = st.windows.length ∧
    (openApp app newId newX newY st).activeWindow = some ew.id ∧
    (openApp app newId newX newY st).windows =
      st.windows.map (fun w =>
        if ew.minimized = true ∧ w.id = ew.id then { w with minimized := false } else w) ∧
    (openApp app newId newX newY st).searchOpen = st.searchOpen := by
  by_cases hm : ew.minimized = true
  · refine ⟨?_, ?_, ?_, ?_⟩
    · simp [openApp, h, hm]
    · simp [openApp, h, hm]
    · simp only [openApp, h, hm, if_true]
      refine List.map_congr_left ?_
      intro w _
      simp [unminimizeStep]
    · simp [openApp, h, hm]
  · rw [Bool.not_eq_true] at hm
    refine ⟨?_, ?_, ?_, ?_⟩ <;> simp only [openApp, h, hm] <;> simp

/-- Witness for C3: opening Terminal over a minimized Terminal window. -/
theorem openApp_existing_title_no_new_window_witness :
    (openApp demoApp demoNewId 150 160 demoLauncherState).windows.length
      = demoLauncherState.windows.length ∧
    (openApp demoApp demoNewId 150 160 demoLauncherState).activeWindow
      = some demoMinWindow.id :=
  have h := openApp_existing_title_no_new_window demoApp demoNewId 150 160
    demoLauncherState demoMinWindow (by with_unfolding_all decide)
  ⟨h.1, h.2.1⟩

/-! ### Claim C4: dock anchor classification (corrected) -/

/-- The dock-release classifier exactly as the claim words it: margin tests
with near-left x below 100, near-right x above width minus 100, near-top y
below 100, near-bottom y above height minus 100, corners first, then left,
right, top, otherwise bottom. -/
def dockAnchorClaimed (x y windowWidth windowHeight : ℚ) : DockPosition :=
  let isNearLeft : Bool := decide (x < 100)
  let isNearRight : Bool := decide (x > windowWidth - 100)
  let isNearTop : Bool := decide (y < 100)
  let isNearBottom : Bool := decide (y > windowHeight - 100)
  if isNearLeft && isNearTop then DockPosition.topLeft
  else if isNearRight && isNearTop then DockPosition.topRight
  else if isNearLeft && isNearBottom then DockPosition.bottomLeft
  else if isNearRight && isNearBottom then DockPosition.bottomRight
  else if isNearLeft then DockPosition.left
  else if isNearRight then DockPosition.right
  else if isNearTop then DockPosition.top
  else DockPosition.bottom

/-- The claim's classifier with the one amendment the code forces: the
near-top test is y below 164 (the 100px margin plus a 64px top offset). -/
def dockAnchorAmendedSpec (x y windowWidth windowHeight : ℚ) : DockPosition :=
  let isNearLeft : Bool := decide (x < 100)
  let isNearRight : Bool := decide (x > windowWidth - 100)
  let isNearTop : Bool := decide (y < 164)
  let isNearBottom : Bool := decide (y > windowHeight - 100)
  if isNearLeft && isNearTop then DockPosition.topLeft
  else if isNearRight && isNearTop then DockPosition.topRight
  else if isNearLeft && isNearBottom then DockPosition.bottomLeft
  else if isNearRight && isNearBottom then DockPosition.bottomRight
  else if isNearLeft then DockPosition.left
  else if isNearRight then DockPosition.right
  else if isNearTop then DockPosition.top
  else DockPosition.bottom

/-- Counterexample to C4 as stated: releasing the dock at (5, 130) on a
1920 by 1080 viewport commits anchor top-left, while the claimed rule with
near-top meaning y below 100 yields left. -/
theorem dock_anchor_claimed_counterexample :
    handleDockDrag 5 130 1920 1080 = DockPosition.topLeft ∧
    dockAnchorClaimed 5 130 1920 1080 = DockPosition.left ∧
    handleDockDrag 5 130 1920 1080 ≠ dockAnchorClaimed 5 130 1920 1080 := by
  with_unfolding_all decide

/-- Claim C4 amended: the committed dock anchor follows the claimed
priority order with near-top meaning y below 164 rather than 100; the two
concrete releases of the claim classify as it states. -/
theorem dock_anchor_amended :
    (∀ x y windowWidth windowHeight : ℚ,
      handleDockDrag x y windowWidth windowHeight
        = dockAnchorAmendedSpec x y windowWidth windowHeight) ∧
    handleDockDrag 5 5 1920 1080 = DockPosition.topLeft ∧
    handleDockDrag 960 1070 1920 1080 = DockPosition.bottom := by
  refine ⟨?_, by with_unfolding_all decide, by with_unfolding_all decide⟩
  intro x y windowWidth windowHeight
  have h164 : (100 : ℚ) + 64 = 164 := by norm_num
  simp only [handleDockDrag, dockAnchorAmendedSpec, h164]

/-! ### Claim C6: the maximize toggle -/

/-- Claim C6: maximizeWindow maps every listed window through
maximizeStep; a window with a different id is untouched; the target's
maximized flag is toggled and its snap anchor cleared, other flags kept;
and when the target was maximized (exit direction) its geometry keeps
exactly the stored values. -/
theorem maximize_toggle_spec (windowId : String) (innerWidth innerHeight : ℚ)
    (l : List Window) (w : Window) :
    maximizeWindow windowId innerWidth innerHeight l
      = l.map (maximizeStep windowId innerWidth innerHeight) ∧
    (w.id ≠ windowId → maximizeStep windowId innerWidth innerHeight w = w) ∧
    (w.id = windowId →
      (maximizeStep windowId innerWidth innerHeight w).maximized = !w.maximized ∧
      (maximizeStep windowId innerWidth innerHeight w).snapped = none ∧
      (maximizeStep windowId innerWidth innerHeight w).minimized = w.minimized ∧
      (maximizeStep windowId innerWidth innerHeight w).id = w.id ∧
      (maximizeStep windowId innerWidth innerHeight w).title = w.title ∧
      (w.maximized = true →
        (maximizeStep windowId innerWidth innerHeight w).x = w.x ∧
        (maximizeStep windowId innerWidth innerHeight w).y = w.y ∧
        (maximizeStep windowId innerWidth innerHeight w).width = w.width ∧
        (maximizeStep windowId innerWidth innerHeight w).height = w.height)) := by
  refine ⟨rfl, ?_, ?_⟩
  · intro h
    simp [maximizeStep, h]
  · intro h
    refine ⟨by simp [maximizeStep, h], by simp [maximizeStep, h], by simp [maximizeStep, h],
      by simp [maximizeStep, h], by simp [maximizeStep, h], ?_⟩
    intro hmax
    simp [maximizeStep, h, hmax]

/-- A maximized window as maximizeWindow produces it on a 1920 by 1080
viewport. -/
def demoMaxWindow : Window :=
  { id := "w1", title := "Terminal", icon := 0, x := 0, y := 40,
    width := 1920, height := 1040, minimized := false, maximized := true,
    snapped := none, isResizing := false }

/-- Witness for C6: exiting maximize keeps the stored geometry and toggles
the flag. -/
theorem maximize_toggle_spec_witness :
    (maximizeStep demoId 1920 1080 demoMaxWindow).maximized = !demoMaxWindow.maximized ∧
    (maximizeStep demoId 1920 1080 demoMaxWindow).x = demoMaxWindow.x ∧
    (maximizeStep demoId 1920 1080 demoMaxWindow).width = demoMaxWindow.width :=
  have h := maximize_toggle_spec demoId 1920 1080 [demoMaxWindow] demoMaxWindow
  have hid : demoMaxWindow.id = demoId := rfl
  ⟨(h.2.2 hid).1, ((h.2.2 hid).2.2.2.2.2 rfl).1, ((h.2.2 hid).2.2.2.2.2 rfl).2.2.1⟩

/-! ### Claim C10: the session gate ignores the credential content -/

/-- The fixed identity list of login-screen.tsx. -/
def users : List User :=
  [{ id := "1", name := "Administrator", username := "admin",
     avatar := some "/placeholder.svg?height=80&width=80" },
   { id := "2", name := "Guest User", username := "guest", avatar := none }]

/-- Claim C10: with an identity selected, any two non-empty credentials
produce the same callback outcome; the callback argument is the selected
identity; and in general the callback fires exactly when an identity is
selected and the credential is non-empty. -/
theorem login_credential_noninterference (su : Option User) (p1 p2 : String)
    (h1 : p1 ≠ "") (h2 : p2 ≠ "") :
    handleLogin su p1 = handleLogin su p2 ∧
    (∀ u : User, handleLogin (some u) p1 = some u) ∧
    (∀ (su2 : Option User) (p : String) (u : User),
      handleLogin su2 p = some u ↔ su2 = some u ∧ p ≠ "") := by
  refine ⟨?_, ?_, ?_⟩
  · cases su with
    | none => rfl
    | some u => simp [handleLogin, h1, h2]
  · intro u
    simp [handleLogin, h1]
  · intro su2 p u
    cases su2 with
    | none => simp [handleLogin]
    | some v =>
        by_cases hp : p = ""
        · simp [handleLogin, hp]
        · simp [handleLogin, hp]

/-- The Administrator identity. -/
def demoUser : User :=
  { id := "1", name := "Administrator", username := "admin",
    avatar := some "/placeholder.svg?height=80&width=80" }

/-- Witness for C10 at two concrete non-empty credentials. -/
theorem login_credential_noninterference_witness :
    handleLogin (some demoUser) ("hunter2") = handleLogin (some demoUser) ("x") ∧
    handleLogin (some demoUser) ("hunter2") = some demoUser :=
  have h := login_credential_noninterference (some demoUser) ("hunter2") ("x")
    (by decide) (by decide)
  ⟨h.1, h.2.1 demoUser⟩

/-! ### Claim C5: release classification of a window drag -/

lemma mouseUp_no_zones (clientX clientY vw vh : ℚ) (st : DesktopState)
    (hz : st.showSnapZones = false) :
    (handleWindowMouseUp clientX clientY vw vh st).windows
      = st.windows.map clearResizeStep := by
  unfold handleWindowMouseUp
  cases hdr : st.dragRef with
  | none => rfl
  | some dr => simp [hz]

/-- Claim C5: with a live drag, when snap zones are visible at release the
release point is classified with the top band (y below 50) first, then the
bottom band, then the left and right bands, the horizontal half of the
viewport picking the left or right corner inside the top and bottom bands:
all six zone outcomes are stated (top-left, top-right, bottom-left,
bottom-right, left-half, right-half), with the top-left release yielding
snap anchor top-left and geometry (0, 40, half the viewport width, half
the work-area height).  When snap zones are not visible at release, every
window keeps its dragged position and size. -/
theorem mouseUp_release_classification (st : DesktopState) (dr : DragRef)
    (clientX clientY innerWidth innerHeight : ℚ)
    (hdr : st.dragRef = some dr) :
    (st.showSnapZones = true → clientY < 50 → clientX < innerWidth / 2 →
      (handleWindowMouseUp clientX clientY innerWidth innerHeight st).windows =
        st.windows.map (fun w =>
          if w.id = dr.windowId then
            { w with x := 0, y := 40, width := innerWidth / 2,
                     height := (innerHeight - 40) / 2, maximized := false,
                     snapped := some SnapType.topLeft, isResizing := false }
          else { w with isResizing := false })) ∧
    (st.showSnapZones = true → clientY < 50 → ¬ clientX < innerWidth / 2 →
      (handleWindowMouseUp clientX clientY innerWidth innerHeight st).windows =
        st.windows.map (fun w =>
          if w.id = dr.windowId then
            { w with x := innerWidth / 2, y := 40, width := innerWidth / 2,
                     height := (innerHeight - 40) / 2, maximized := false,
                     snapped := some SnapType.topRight, isResizing := false }
          else { w with isResizing := false })) ∧
    (st.showSnapZones = true → ¬ clientY < 50 → clientY > innerHeight - 50 →
      clientX < innerWidth / 2 →
      (handleWindowMouseUp clientX clientY innerWidth innerHeight st).windows =
        st.windows.map (fun w =>
          if w.id = dr.windowId then
            { w with x := 0, y := 40 + (innerHeight - 40) / 2, width := innerWidth / 2,
                     height := (innerHeight - 40) / 2, maximized := false,
                     snapped := some SnapType.bottomLeft, isResizing := false }
          else { w with isResizing := false })) ∧
    (st.showSnapZones = true → ¬ clientY < 50 → clientY > innerHeight - 50 →
      ¬ clientX < innerWidth / 2 →
      (handleWindowMouseUp clientX clientY innerWidth innerHeight st).windows =
        st.windows.map (fun w =>
          if w.id = dr.windowId then
            { w with x := innerWidth / 2, y := 40 + (innerHeight - 40) / 2,
                     width := innerWidth / 2, height := (innerHeight - 40) / 2,
                     maximized := false, snapped := some SnapType.bottomRight,
                     isResizing := false }
          else { w with isResizing := false })) ∧
    (st.showSnapZones = true → ¬ clientY < 50 → ¬ clientY > innerHeight - 50 →
      clientX < 50 →
      (handleWindowMouseUp clientX clientY innerWidth innerHeight st).windows =
        st.windows.map (fun w =>
          if w.id = dr.windowId then
            { w with x := 0, y := 40, width := innerWidth / 2,
                     height := innerHeight - 40, maximized := false,
                     snapped := some SnapType.left, isResizing := false }
          else { w with isResizing := false })) ∧
    (st.showSnapZones = true → ¬ clientY < 50 → ¬ clientY > innerHeight - 50 →
      ¬ clientX < 50 → clientX > innerWidth - 50 →
      (handleWindowMouseUp clientX clientY innerWidth innerHeight st).windows =
        st.windows.map (fun w =>
          if w.id = dr.windowId then
            { w with x := innerWidth / 2, y := 40, width := innerWidth / 2,
                     height := innerHeight - 40, maximized := false,
                     snapped := some SnapType.right, isResizing := false }
          else { w with isResizing := false })) ∧
    (st.showSnapZones = false →
      (handleWindowMouseUp clientX clientY innerWidth innerHeight st).windows =
        st.windows.map clearResizeStep) := by
  refine ⟨?_, ?_, ?_, ?_, ?_, ?_, fun hz => mouseUp_no_zones _ _ _ _ _ hz⟩
  · intro hz h1 h2
    simp only [handleWindowMouseUp, hdr, hz, if_pos h1, if_pos h2, snapWindow, if_true]
    rw [List.map_map]
    refine List.map_congr_left ?_
    intro w _
    by_cases hid : w.id = dr.windowId <;>
      simp [snapStep, clearResizeStep, snapTargetFor, hid, Function.comp]
  · intro hz h1 h2
    simp only [handleWindowMouseUp, hdr, hz, if_pos h1, if_neg h2, snapWindow, if_true]
    rw [List.map_map]
    refine List.map_congr_left ?_
    intro w _
    by_cases hid : w.id = dr.windowId <;>
      simp [snapStep, clearResizeStep, snapTargetFor, hid, Function.comp]
  · intro hz h1 h2 h3
    simp only [handleWindowMouseUp, hdr, hz, if_neg h1, if_pos h2, if_pos h3, snapWindow,
      if_true]
    rw [List.map_map]
    refine List.map_congr_left ?_
    intro w _
    by_cases hid : w.id = dr.windowId <;>
      simp [snapStep, clearResizeStep, snapTargetFor, hid, Function.comp]
  · intro hz h1 h2 h3
    simp only [handleWindowMouseUp, hdr, hz, if_neg h1, if_pos h2, if_neg h3, snapWindow,
      if_true]
    rw [List.map_map]
    refine List.map_congr_left ?_
    intro w _
    by_cases hid : w.id = dr.windowId <;>
      simp [snapStep, clearResizeStep, snapTargetFor, hid, Function.comp]
  · intro hz h1 h2 h3
    simp only [handleWindowMouseUp, hdr, hz, if_neg h1, if_neg h2, if_pos h3, snapWindow,
      if_true]
    rw [List.map_map]
    refine List.map_congr_left ?_
    intro w _
    by_cases hid : w.id = dr.windowId <;>
      simp [snapStep, clearResizeStep, snapTargetFor, hid, Function.comp]
  · intro hz h1 h2 h3 h4
    simp only [handleWindowMouseUp, hdr, hz, if_neg h1, if_neg h2, if_neg h3, if_pos h4,
      snapWindow, if_true]
    rw [List.map_map]
    refine List.map_congr_left ?_
    intro w _
    by_cases hid : w.id = dr.windowId <;>
      simp [snapStep, clearResizeStep, snapTargetFor, hid, Function.comp]

/-- demoDragState with the snap-zone overlay showing. -/
def demoSnapState : DesktopState :=
  { demoDragState with showSnapZones := true }

/-- Witness for C5: releasing at (10, 10) on a 1920 by 1080 viewport snaps
the dragged window to the top-left quarter. -/
theorem mouseUp_release_classification_witness :
    (handleWindowMouseUp 10 10 1920 1080 demoSnapState).windows =
      demoSnapState.windows.map (fun w =>
        if w.id = demoDragRef.windowId then
          { w with x := 0, y := 40, width := (1920 : ℚ) / 2,
                   height := ((1080 : ℚ) - 40) / 2, maximized := false,
                   snapped := some SnapType.topLeft, isResizing := false }
        else { w with isResizing := false }) :=
  (mouseUp_release_classification demoSnapState demoDragRef 10 10 1920 1080 rfl).1
    rfl (by decide) (by with_unfolding_all decide)

/-! ### Claim C7: maximized windows and drag gestures (corrected) -/

lemma dragMoveStep_maximized (windowId : String) (deltaX deltaY : ℚ) (w : Window)
    (h : w.maximized = true) : dragMoveStep windowId deltaX deltaY w = w := by
  apply dragMoveStep_eq_of_not
  simp [h]

lemma mouseMove_maximized_get (clientX clientY vw vh : ℚ) (st : DesktopState)
    (i : ℕ) (w : Window) (hw : st.windows[i]? = some w) (hmax : w.maximized = true) :
    (handleWindowMouseMove clientX clientY vw vh st).windows[i]? = some w := by
  unfold handleWindowMouseMove
  split
  · exact hw
  · rename_i dr heq
    show (st.windows.map _)[i]? = some w
    rw [List.getElem?_map, hw]
    simp [dragMoveStep_maximized _ _ _ _ hmax]

lemma applyDragMoves_maximized_get (moves : List PointerEv) :
    ∀ (st : DesktopState) (i : ℕ) (w : Window),
      st.windows[i]? = some w → w.maximized = true →
      (applyDragMoves moves st).windows[i]? = some w := by
  induction moves with
  | nil =>
      intro st i w hw _
      simpa [applyDragMoves] using hw
  | cons e rest ih =>
      intro st i w hw hmax
      simp only [applyDragMoves]
      exact ih _ i w (mouseMove_maximized_get _ _ _ _ _ _ _ hw hmax) hmax

/-- A shell state holding one maximized window. -/
def demoMaxState : DesktopState :=
  { windows := [demoMaxWindow], activeWindow := none, searchOpen := false,
    dockPosition := DockPosition.bottom, showSnapZones := false,
    draggingWindow := none, dragRef := none }

/-- Counterexample to C7 as stated: a drag gesture on a maximized window
whose pointer ends near the top edge snaps the window, changing its width
from 1920 to 960. -/
theorem maximized_window_snap_counterexample :
    demoMaxWindow.maximized = true ∧
    demoMaxWindow.width = 1920 ∧
    ((windowDragGesture demoId 100 100
        [{ clientX := 10, clientY := 10, vw := 1920, vh := 1080 }]
        10 10 1920 1080 demoMaxState).windows.map Window.width) = [960] := by
  refine ⟨rfl, rfl, ?_⟩
  with_unfolding_all decide

/-- Claim C7 amended: a maximized window never moves during drag move
updates, and a whole drag gesture leaves its geometry unchanged whenever
the snap-zone display state is off at release; when snap zones are visible
at release, however, the release classification still snaps the maximized
window (see the counterexample). -/
theorem maximized_drag_amended (st : DesktopState) (windowId : String)
    (downX downY : ℚ) (moves : List PointerEv) (upX upY upW upH : ℚ)
    (i : ℕ) (w : Window)
    (hw : st.windows[i]? = some w) (hmax : w.maximized = true)
    (hz : (applyDragMoves moves
        (handleWindowMouseDown windowId downX downY st)).showSnapZones = false) :
    (windowDragGesture windowId downX downY moves upX upY upW upH st).windows[i]?
      = some { w with isResizing := false } ∧
    ({ w with isResizing := false } : Window).x = w.x ∧
    ({ w with isResizing := false } : Window).y = w.y ∧
    ({ w with isResizing := false } : Window).width = w.width ∧
    ({ w with isResizing := false } : Window).height = w.height := by
  refine ⟨?_, rfl, rfl, rfl, rfl⟩
  unfold windowDragGesture
  have hdown : (handleWindowMouseDown windowId downX downY st).windows[i]? = some w := hw
  have hmv := applyDragMoves_maximized_get moves _ i w hdown hmax
  rw [mouseUp_no_zones _ _ _ _ _ hz, List.getElem?_map, hmv]
  rfl

/-- Witness for C7 amended: a trivial gesture on the maximized window with
snap zones off leaves its record intact apart from the transient resize
flag. -/
theorem maximized_drag_amended_witness :
    (windowDragGesture demoId 100 100 [] 500 500 1920 1080 demoMaxState).windows[0]?
      = some { demoMaxWindow with isResizing := false } :=
  (maximized_drag_amended demoMaxState demoId 100 100 [] 500 500 1920 1080 0
    demoMaxWindow rfl rfl rfl).1

/-! ### Claim C8: resize clamping and the viewport (corrected) -/

/-- A window already at the 300 by 300 floor sitting at the origin of the
work area. -/
def demoFloorWindow : Window :=
  { id := "w1", title := "Terminal", icon := 0, x := 0, y := 40,
    width := 300, height := 200, minimized := false, maximized := false,
    snapped := none, isResizing := false }

/-- The live resize snapshot for demoFloorWindow with the right handle. -/
def demoRz : ResizingWindow :=
  { windowId := "w1", handle := Handle.right, startX := 0, startY := 0,
    startWidth := 300, startHeight := 200, startWindowX := 0, startWindowY := 40 }

/-- Counterexample to C8 as stated: dragging the right handle 1000px right
on an 800 by 600 viewport gives width 1300 and x 0, so x plus width is
1300, beyond the viewport width. -/
theorem resize_clamp_counterexample :
    (resizeStep demoRz 1000 0 800 600 demoFloorWindow).x
      + (resizeStep demoRz 1000 0 800 600 demoFloorWindow).width = 1300 ∧
    ¬ ((resizeStep demoRz 1000 0 800 600 demoFloorWindow).x
      + (resizeStep demoRz 1000 0 800 600 demoFloorWindow).width ≤ 800) := by
  with_unfolding_all decide

/-- Claim C8 amended: after a resize update the resized window always has x
at least 0 and y at least 40, and its bounding box is confined by the
viewport only up to the new size itself: x plus width is at most the larger
of the viewport width and the width, and y plus height at most the larger
of the viewport height and 40 plus the height (so the box fits whenever the
new size fits the work area). -/
theorem resize_clamp_amended (rz : ResizingWindow) (clientX clientY vw vh : ℚ)
    (w : Window) (hid : w.id = rz.windowId) :
    0 ≤ (resizeStep rz clientX clientY vw vh w).x ∧
    40 ≤ (resizeStep rz clientX clientY vw vh w).y ∧
    (resizeStep rz clientX clientY vw vh w).x + (resizeStep rz clientX clientY vw vh w).width
      ≤ max vw (resizeStep rz clientX clientY vw vh w).width ∧
    (resizeStep rz clientX clientY vw vh w).y + (resizeStep rz clientX clientY vw vh w).height
      ≤ max vh (40 + (resizeStep rz clientX clientY vw vh w).height) := by
  unfold resizeStep
  rw [if_pos hid]
  refine ⟨le_max_left _ _, le_max_left _ _, ?_, ?_⟩
  · set g := resizeCore rz (clientX - rz.startX) (clientY - rz.startY) w with hg
    show max 0 (min g.x (vw - g.width)) + g.width ≤ max vw g.width
    calc max 0 (min g.x (vw - g.width)) + g.width
        ≤ max 0 (vw - g.width) + g.width :=
          add_le_add_right (max_le_max le_rfl (min_le_right _ _)) _
      _ = max (0 + g.width) (vw - g.width + g.width) := (max_add_add_right _ _ _).symm
      _ = max g.width vw := by rw [zero_add, sub_add_cancel]
      _ = max vw g.width := max_comm _ _
  · set g := resizeCore rz (clientX - rz.startX) (clientY - rz.startY) w with hg
    show max 40 (min g.y (vh - g.height)) + g.height ≤ max vh (40 + g.height)
    calc max 40 (min g.y (vh - g.height)) + g.height
        ≤ max 40 (vh - g.height) + g.height :=
          add_le_add_right (max_le_max le_rfl (min_le_right _ _)) _
      _ = max (40 + g.height) (vh - g.height + g.height) := (max_add_add_right _ _ _).symm
      _ = max (40 + g.height) vh := by rw [sub_add_cancel]
      _ = max vh (40 + g.height) := max_comm _ _

/-- Witness for C8 amended at the counterexample input: position is still
clamped to the work area even though the box overflows. -/
theorem resize_clamp_amended_witness :
    0 ≤ (resizeStep demoRz 1000 0 800 600 demoFloorWindow).x ∧
    40 ≤ (resizeStep demoRz 1000 0 800 600 demoFloorWindow).y :=
  have h := resize_clamp_amended demoRz 1000 0 800 600 demoFloorWindow rfl
  ⟨h.1, h.2.1⟩

/-! ### Claim C9: the launcher overlay on selection (corrected) -/

/-- A shell state with the launcher overlay open and no windows. -/
def demoEmptyState : DesktopState :=
  { windows := [], activeWindow := none, searchOpen := true,
    dockPosition := DockPosition.bottom, showSnapZones := false,
    draggingWindow := none, dragRef := none }

/-- Counterexample to C9 as stated: selecting Terminal in the launcher
while a Terminal window already exists leaves the launcher-open flag true
(the overlay is not dismissed). -/
theorem openApp_overlay_counterexample :
    demoLauncherState.searchOpen = true ∧
    demoLauncherState.windows.find? (fun w => w.title == demoApp.name)
      = some demoMinWindow ∧
    (openApp demoApp demoNewId 150 160 demoLauncherState).searchOpen = true := by
  with_unfolding_all decide

/-- Claim C9 amended: selecting a catalog entry invokes open, and the
overlay is dismissed exactly when no window with the entry's title exists
(a new window is created); when such a window exists, the launcher-open
flag is left unchanged. -/
theorem openApp_overlay_amended (app : App) (newId : String) (newX newY : ℚ)
    (st : DesktopState) :
    (st.windows.find? (fun w => w.title == app.name) = none →
      (openApp app newId newX newY st).searchOpen = false) ∧
    (∀ ew : Window, st.windows.find? (fun w => w.title == app.name) = some ew →
      (openApp app newId newX newY st).searchOpen = st.searchOpen) := by
  constructor
  · intro h
    simp [openApp, h]
  · intro ew h
    simp [openApp, h]

/-- Witness for C9 amended: the overlay survives re-opening an existing
Terminal and closes when Terminal is fresh. -/
theorem openApp_overlay_amended_witness :
    (openApp demoApp demoNewId 150 160 demoLauncherState).searchOpen
      = demoLauncherState.searchOpen ∧
    (openApp demoApp demoNewId 150 160 demoEmptyState).searchOpen = false :=
  ⟨(openApp_overlay_amended demoApp demoNewId 150 160 demoLauncherState).2
      demoMinWindow (by with_unfolding_all decide),
   (openApp_overlay_amended demoApp demoNewId 150 160 demoEmptyState).1 rfl⟩

end MominOS
